import Mathlib

set_option maxRecDepth 100000

/-!
Verification development for the tello-drones repository: a shallow
embedding of `src/tello_test.py` and `src/wifi-test.py` in Lean 4, with
theorems settling the specification claims about the UDP command channel.

Modelling conventions:
* bytes are `Nat` (each < 256 on the wire);
* Python exceptions that the scripts can hit are the constructors of
  `PyError`; fallible operations return `Except PyError _`;
* observable behaviour (console prints, transmitted datagrams, sleeps,
  receive waits, socket close) is recorded as a trace of `Event`s;
* the outside world (whether `bind` fails, which datagram — if any —
  arrives during each `recvfrom` wait) is a `World` value, so each
  script's `main` is a pure function of the `World`.
-/

/-- An (ip, port) network address. -/
structure Addr where
  ip : String
  port : Nat
deriving DecidableEq

/-- Errors the Python runtime can raise in these scripts: `bindError`
models an `OSError` from `socket.bind` (port unavailable) and
`transportError` models an `OSError` from using an unusable (closed)
socket.  `socket.timeout` is caught inside `recv` and never escapes, so
it needs no constructor. -/
inductive PyError where
  | bindError
  | transportError
deriving DecidableEq

/-- Observable events of a run. -/
inductive Event where
  /-- A line printed to the console. -/
  | print (line : String)
  /-- One UDP datagram transmitted by `sendto`. -/
  | dgram (dest : Addr) (payload : List Nat)
  /-- A `time.sleep(d)` call (seconds). -/
  | sleep (d : ℚ)
  /-- Blocking in `recvfrom` with the given timeout (seconds). -/
  | recvWait (timeout : Nat)
  /-- `sock.close()`. -/
  | close
deriving DecidableEq

/-- The state of the one datagram socket a script owns: whether it has
been closed.  (The bound local port is fixed at 9000 in both scripts.) -/
structure Sock where
  closed : Bool
deriving DecidableEq

/-- `socket.socket(AF_INET, SOCK_DGRAM)`: a fresh, open socket. -/
def mkSock : Sock := ⟨false⟩

/-- `sock.close()`.  Python's `socket.close` never raises and may be
called repeatedly, so it is a total function on socket states. -/
def closeSock (_ : Sock) : Sock := ⟨true⟩

/-- `sock.bind(("", port))`: fails with an `OSError` when the port is
unavailable; whether it is unavailable is part of the `World`. -/
def bindOp (s : Sock) (_port : Nat) (fails : Bool) : Except PyError Sock :=
  if fails then .error .bindError else .ok s

/-- UTF-8 encoding of one code point (the scalar value of a `Char`). -/
def encodeChar (n : Nat) : List Nat :=
  if n < 0x80 then [n]
  else if n < 0x800 then
    [0xC0 + n / 64, 0x80 + n % 64]
  else if n < 0x10000 then
    [0xE0 + n / 4096, 0x80 + n / 64 % 64, 0x80 + n % 64]
  else
    [0xF0 + n / 262144, 0x80 + n / 4096 % 64, 0x80 + n / 64 % 64, 0x80 + n % 64]

/-- `cmd.encode("utf-8")`: UTF-8 encoding of a string as a byte list. -/
def utf8Encode (s : String) : List Nat :=
  (s.data.map (fun c => encodeChar c.toNat)).flatten

/-- Is `b` a UTF-8 continuation byte (`0x80`–`0xBF`)? -/
def isCont (b : Nat) : Bool := 0x80 ≤ b && b ≤ 0xBF

/-- Valid second byte of a 3-byte sequence headed by `b0` (RFC 3629:
`0xE0` needs `0xA0`–`0xBF`, `0xED` needs `0x80`–`0x9F` to exclude
surrogates, the rest take any continuation byte). -/
def isCont3 (b0 b1 : Nat) : Bool :=
  if b0 = 0xE0 then 0xA0 ≤ b1 && b1 ≤ 0xBF
  else if b0 = 0xED then 0x80 ≤ b1 && b1 ≤ 0x9F
  else isCont b1

/-- Valid second byte of a 4-byte sequence headed by `b0` (RFC 3629:
`0xF0` needs `0x90`–`0xBF`, `0xF4` needs `0x80`–`0x8F` to stay below
`U+10FFFF`, the rest take any continuation byte). -/
def isCont4 (b0 b1 : Nat) : Bool :=
  if b0 = 0xF0 then 0x90 ≤ b1 && b1 ≤ 0xBF
  else if b0 = 0xF4 then 0x80 ≤ b1 && b1 ≤ 0x8F
  else isCont b1

/-- UTF-8 decoding loop.  `repl` is what an ill-formed subsequence
decodes to (`[]` for Python's `errors="ignore"`, `[U+FFFD]` for
`errors="replace"`); each maximal ill-formed subpart contributes one
`repl`.  The fuel argument starts at the byte count, which bounds the
number of steps since every step consumes at least one byte. -/
def utf8Go (repl : List Char) : Nat → List Nat → List Char
  | _, [] => []
  | 0, _ :: _ => []
  | fuel + 1, b :: bs =>
    if b < 0x80 then
      Char.ofNat b :: utf8Go repl fuel bs
    else if 0xC2 ≤ b && b ≤ 0xDF then
      match bs with
      | b1 :: bs1 =>
        if isCont b1 then
          Char.ofNat ((b - 0xC0) * 64 + (b1 - 0x80)) :: utf8Go repl fuel bs1
        else repl ++ utf8Go repl fuel bs
      | [] => repl ++ utf8Go repl fuel []
    else if 0xE0 ≤ b && b ≤ 0xEF then
      match bs with
      | b1 :: b2 :: bs2 =>
        if isCont3 b b1 && isCont b2 then
          Char.ofNat ((b - 0xE0) * 4096 + (b1 - 0x80) * 64 + (b2 - 0x80)) ::
            utf8Go repl fuel bs2
        else if isCont3 b b1 then repl ++ utf8Go repl fuel (b2 :: bs2)
        else repl ++ utf8Go repl fuel (b1 :: b2 :: bs2)
      | [b1] =>
        if isCont3 b b1 then repl ++ utf8Go repl fuel []
        else repl ++ utf8Go repl fuel [b1]
      | [] => repl ++ utf8Go repl fuel []
    else if 0xF0 ≤ b && b ≤ 0xF4 then
      match bs with
      | b1 :: b2 :: b3 :: bs3 =>
        if isCont4 b b1 && isCont b2 && isCont b3 then
          Char.ofNat ((b - 0xF0) * 262144 + (b1 - 0x80) * 4096 +
              (b2 - 0x80) * 64 + (b3 - 0x80)) :: utf8Go repl fuel bs3
        else if isCont4 b b1 && isCont b2 then repl ++ utf8Go repl fuel (b3 :: bs3)
        else if isCont4 b b1 then repl ++ utf8Go repl fuel (b2 :: b3 :: bs3)
        else repl ++ utf8Go repl fuel (b1 :: b2 :: b3 :: bs3)
      | [b1, b2] =>
        if isCont4 b b1 && isCont b2 then repl ++ utf8Go repl fuel []
        else if isCont4 b b1 then repl ++ utf8Go repl fuel [b2]
        else repl ++ utf8Go repl fuel [b1, b2]
      | [b1] =>
        if isCont4 b b1 then repl ++ utf8Go repl fuel []
        else repl ++ utf8Go repl fuel [b1]
      | [] => repl ++ utf8Go repl fuel []
    else
      -- 0x80–0xC1 (stray continuation / overlong lead) or 0xF5–0xFF:
      -- never a valid lead byte; one byte of ill-formed input.
      repl ++ utf8Go repl fuel bs

/-- `data.decode("utf-8", errors="ignore")`: ill-formed subsequences are
dropped. -/
def utf8DecodeIgnore (bs : List Nat) : List Char :=
  utf8Go [] bs.length bs

/-- Modelled from the spec: the spec's "invalid sequences replaced"
decoding (Python's `errors="replace"`, each ill-formed subpart becoming
U+FFFD).  The source uses `errors="ignore"`; this definition exists to
compare the spec's wording against the source's behaviour. -/
def utf8DecodeReplace (bs : List Nat) : List Char :=
  utf8Go [Char.ofNat 0xFFFD] bs.length bs

/-- The ASCII whitespace characters Python's `str.strip()` removes
(space, tab, newline, carriage return, vertical tab, form feed).
Device replies are ASCII, so the non-ASCII whitespace Python also
strips does not arise. -/
def isPySpace (c : Char) : Bool :=
  c == ' ' || c == '\t' || c == '\n' || c == '\r' ||
    c == Char.ofNat 11 || c == Char.ofNat 12

/-- `s.strip()`: remove leading and trailing whitespace. -/
def pyStrip (l : List Char) : List Char :=
  ((l.dropWhile isPySpace).reverse.dropWhile isPySpace).reverse

/-- The world outside a script: whether binding local port 9000 fails,
and the payload of the first datagram to arrive during each of the (at
most two) `recvfrom` waits — `none` when nothing arrives within that
wait's timeout. -/
structure World where
  bindFails : Bool
  arrival1 : Option (List Nat)
  arrival2 : Option (List Nat)

/-- The datagrams of a trace, as (destination, payload) pairs, in
transmission order. -/
def dgrams (tr : List Event) : List (Addr × List Nat) :=
  tr.filterMap fun e =>
    match e with
    | .dgram a p => some (a, p)
    | _ => none

namespace TelloTest

/-- `TELLO_IP` from `tello_test.py`. -/
def TELLO_IP : String := "192.168.10.1"

/-- `TELLO_PORT` from `tello_test.py`. -/
def TELLO_PORT : Nat := 8889

/-- `ADDR` from `tello_test.py`. -/
def ADDR : Addr := ⟨TELLO_IP, TELLO_PORT⟩

/-- The unused default of `send`'s `delay` parameter (0.5 s). -/
def DEFAULT_DELAY : ℚ := 1 / 2

/-- `send(sock, cmd, delay)` from `tello_test.py`: print the command,
transmit its UTF-8 encoding to `ADDR` in one datagram, sleep `delay`
seconds.  `sendto` on a closed socket raises an `OSError`. -/
def send (s : Sock) (cmd : String) (delay : ℚ) :
    Except PyError (Sock × List Event) :=
  if s.closed then .error .transportError
  else
    .ok (s, [.print (">>> " ++ cmd), .dgram ADDR (utf8Encode cmd), .sleep delay])

/-- `main()` from `tello_test.py`.  The socket is created and bound
before the `try:` block; every exit of the `try:` body runs
`sock.close()` in `finally:`.  Returns the event trace, the final
socket state, and the uncaught error if the run aborted. -/
def main (w : World) : List Event × Sock × Option PyError :=
  let s := mkSock
  match bindOp s 9000 w.bindFails with
  | .error e => ([], s, some e)
  | .ok s =>
    match send s "command" 1 with
    | .error e => ([.close], closeSock s, some e)
    | .ok (s, e1) =>
      match send s "speed 50" 3 with
      | .error e => (e1 ++ [.close], closeSock s, some e)
      | .ok (s, e2) =>
        match send s "takeoff" 4 with
        | .error e => (e1 ++ e2 ++ [.close], closeSock s, some e)
        | .ok (s, e3) =>
          match send s "up 40" 3 with
          | .error e => (e1 ++ e2 ++ e3 ++ [.close], closeSock s, some e)
          | .ok (s, e4) =>
            match send s "forward 100" 4 with
            | .error e => (e1 ++ e2 ++ e3 ++ e4 ++ [.close], closeSock s, some e)
            | .ok (s, e5) =>
              match send s "cw 180" 5 with
              | .error e =>
                (e1 ++ e2 ++ e3 ++ e4 ++ e5 ++ [.close], closeSock s, some e)
              | .ok (s, e6) =>
                match send s "forward 100" 7 with
                | .error e =>
                  (e1 ++ e2 ++ e3 ++ e4 ++ e5 ++ e6 ++ [.close],
                    closeSock s, some e)
                | .ok (s, e7) =>
                  match send s "land" 3 with
                  | .error e =>
                    (e1 ++ e2 ++ e3 ++ e4 ++ e5 ++ e6 ++ e7 ++ [.close],
                      closeSock s, some e)
                  | .ok (s, e8) =>
                    (e1 ++ e2 ++ e3 ++ e4 ++ e5 ++ e6 ++ e7 ++ e8 ++ [.close],
                      closeSock s, none)

end TelloTest

namespace WifiTest

/-- `TELLO_IP` from `wifi-test.py`. -/
def TELLO_IP : String := "192.168.10.1"

/-- `TELLO_PORT` from `wifi-test.py`. -/
def TELLO_PORT : Nat := 8889

/-- `ADDR` from `wifi-test.py`. -/
def ADDR : Addr := ⟨TELLO_IP, TELLO_PORT⟩

/-- `send(sock, cmd)` from `wifi-test.py`: print the command and
transmit its UTF-8 encoding to `ADDR` in one datagram.  `sendto` on a
closed socket raises an `OSError`. -/
def send (s : Sock) (cmd : String) : Except PyError (Sock × List Event) :=
  if s.closed then .error .transportError
  else .ok (s, [.print (">>> " ++ cmd), .dgram ADDR (utf8Encode cmd)])

/-- `recv(sock, timeout)` from `wifi-test.py`: set the socket timeout,
block in `recvfrom(1024)`.  A UDP `recvfrom` with a 1024-byte buffer
delivers at most the first 1024 bytes of the arriving datagram (the
rest of that datagram is discarded).  On arrival the payload is decoded
with `errors="ignore"`, echoed, and returned stripped; on timeout the
`socket.timeout` is caught and `None` is returned.  Operating on a
closed socket raises an `OSError`. -/
def recv (s : Sock) (timeout : Nat) (arrival : Option (List Nat)) :
    Except PyError (Sock × Option String × List Event) :=
  if s.closed then .error .transportError
  else
    match arrival with
    | some payload =>
      let data := payload.take 1024
      .ok (s, some (String.mk (pyStrip (utf8DecodeIgnore data))),
        [.recvWait timeout,
          .print ("<<< " ++ String.mk (utf8DecodeIgnore data))])
    | none =>
      .ok (s, none, [.recvWait timeout, .print "<<< (no response)"])

/-- The final report of `main` (lines 33–38): Python's `resp == "ok"`
is `False` when `resp` is `None`, so the `None` case falls through to
the final `else`. -/
def report (resp : Option String) : String :=
  if resp = some "ok" then
    "Sent OK. Tello should reboot/drop Wi-Fi and attempt to join egg."
  else if resp = some "error" then
    "Tello replied ERROR. This usually means your model/firmware " ++
      "doesn\x27t support station mode."
  else
    "No response. Either not in SDK mode, not on Tello Wi-Fi, or " ++
      "command unsupported."

/-- `main()` from `wifi-test.py`.  The socket is created and bound
before the `try:` block; every exit of the `try:` body runs
`sock.close()` in `finally:`. -/
def main (w : World) : List Event × Sock × Option PyError :=
  let s := mkSock
  match bindOp s 9000 w.bindFails with
  | .error e => ([], s, some e)
  | .ok s =>
    match send s "command" with
    | .error e => ([.close], closeSock s, some e)
    | .ok (s, e1) =>
      match recv s 3 w.arrival1 with
      | .error e => (e1 ++ [.close], closeSock s, some e)
      | .ok (s, _, e2) =>
        match send s "ap egg thewifipassword" with
        | .error e => (e1 ++ e2 ++ [.close], closeSock s, some e)
        | .ok (s, e3) =>
          match recv s 8 w.arrival2 with
          | .error e => (e1 ++ e2 ++ e3 ++ [.close], closeSock s, some e)
          | .ok (s, resp, e4) =>
            (e1 ++ e2 ++ e3 ++ e4 ++ [.print (report resp), .close],
              closeSock s, none)

end WifiTest

/-- The text result of a `recv` call: the returned string, `none` both
on timeout and on a raised error. -/
def recvText (r : Except PyError (Sock × Option String × List Event)) :
    Option String :=
  match r with
  | .ok (_, t, _) => t
  | .error _ => none

/-- Pacing scan: `pending` records that a datagram has been sent with
no pacing step (sleep or receive wait) since.  The scan fails exactly
when some datagram is transmitted while a previous one is still
unpaced. -/
def pacedAux : Bool → List Event → Bool
  | _, [] => true
  | pending, e :: tr =>
    match e with
    | .dgram _ _ => !pending && pacedAux true tr
    | .sleep _ => pacedAux false tr
    | .recvWait _ => pacedAux false tr
    | _ => pacedAux pending tr

/-- A trace is paced when between any two datagram transmissions there
is a sleep or a receive wait. -/
def paced (tr : List Event) : Bool := pacedAux false tr

/-- The command strings `tello_test.py` passes to `send`, in order. -/
def telloSent : List String :=
  ["command", "speed 50", "takeoff", "up 40", "forward 100", "cw 180",
    "forward 100", "land"]

/-- The command strings `wifi-test.py` passes to `send`, in order. -/
def wifiSent : List String :=
  ["command", "ap egg thewifipassword"]

/-- Split a character list on single spaces (the shape of the wire
commands: a head token and space-separated arguments). -/
def splitOnSpaceAux : List Char → List Char → List (List Char)
  | acc, [] => [acc.reverse]
  | acc, c :: cs =>
    if c = ' ' then acc.reverse :: splitOnSpaceAux [] cs
    else splitOnSpaceAux (c :: acc) cs

/-- Split a character list into space-separated tokens. -/
def splitOnSpace (l : List Char) : List (List Char) := splitOnSpaceAux [] l

/-- A nonempty all-digit token (a numeric command argument). -/
def natTok : List Char → Bool
  | [] => false
  | l => l.all Char.isDigit

/-- Numeric value of a digit token. -/
def natVal (l : List Char) : Nat :=
  l.foldl (fun n c => n * 10 + (c.toNat - 48)) 0

/-- Modelled from the spec: the command forms the spec lists as the
known modeled commands — `command`, `takeoff`, `land`, `speed n`,
`up n`, `forward n`, `cw n`, and `ap ssid password`. -/
def isModeledCommand (s : String) : Bool :=
  match splitOnSpace s.data with
  | [w] => w == "command".data || w == "takeoff".data || w == "land".data
  | [w, n] =>
    (w == "speed".data || w == "up".data || w == "forward".data ||
      w == "cw".data) && natTok n
  | [w, a, b] => w == "ap".data && !a.isEmpty && !b.isEmpty
  | _ => false

/-- Modelled from the spec: a `speed` command's argument must lie in
the stated 10–100 range; other commands are unconstrained here. -/
def speedInRange (s : String) : Bool :=
  match splitOnSpace s.data with
  | [w, n] => if w == "speed".data then 10 ≤ natVal n && natVal n ≤ 100 else true
  | _ => true

/-- A 1025-byte datagram payload: 1024 blanks and then `b`. -/
def c3payload : List Nat := List.replicate 1024 32 ++ [98]

/-- The datagrams of a `tello_test.py` run: none when bind fails,
otherwise exactly the eight scripted commands, UTF-8 encoded, each
addressed to `ADDR`. -/
theorem tello_dgrams (w : World) :
    dgrams (TelloTest.main w).1 =
      if w.bindFails then []
      else telloSent.map (fun c => (TelloTest.ADDR, utf8Encode c)) := by
  rcases w with ⟨bf, a1, a2⟩
  cases bf <;> rfl

/-- The datagrams of a `wifi-test.py` run: none when bind fails,
otherwise exactly the two scripted commands, UTF-8 encoded, each
addressed to `ADDR`. -/
theorem wifi_dgrams (w : World) :
    dgrams (WifiTest.main w).1 =
      if w.bindFails then []
      else wifiSent.map (fun c => (WifiTest.ADDR, utf8Encode c)) := by
  rcases w with ⟨bf, a1, a2⟩
  cases bf <;> cases a1 <;> cases a2 <;> rfl

/-- Claim C1: for every command string, `send` transmits exactly one
datagram whose payload is the UTF-8 encoding of that string, addressed
to the fixed peer endpoint (192.168.10.1, 8889), and every datagram of
every run of either script goes to that same endpoint. -/
theorem send_single_datagram_to_fixed_peer :
    (∀ (s : Sock) (cmd : String) (r : Sock × List Event),
      WifiTest.send s cmd = Except.ok r →
        dgrams r.2 = [(WifiTest.ADDR, utf8Encode cmd)]) ∧
    (∀ (s : Sock) (cmd : String) (d : ℚ) (r : Sock × List Event),
      TelloTest.send s cmd d = Except.ok r →
        dgrams r.2 = [(TelloTest.ADDR, utf8Encode cmd)]) ∧
    WifiTest.ADDR = ⟨"192.168.10.1", 8889⟩ ∧
    TelloTest.ADDR = ⟨"192.168.10.1", 8889⟩ ∧
    (∀ (w : World) (x : Addr × List Nat),
      x ∈ dgrams (TelloTest.main w).1 → x.1 = TelloTest.ADDR) ∧
    (∀ (w : World) (x : Addr × List Nat),
      x ∈ dgrams (WifiTest.main w).1 → x.1 = WifiTest.ADDR) := by
  refine ⟨?_, ?_, rfl, rfl, ?_, ?_⟩
  · intro s cmd r h
    by_cases hs : s.closed
    · simp [WifiTest.send, hs] at h
    · simp [WifiTest.send, hs] at h
      subst h
      rfl
  · intro s cmd d r h
    by_cases hs : s.closed
    · simp [TelloTest.send, hs] at h
    · simp [TelloTest.send, hs] at h
      subst h
      rfl
  · intro w x hx
    rw [tello_dgrams] at hx
    rcases w with ⟨bf, a1, a2⟩
    cases bf
    · simp [telloSent] at hx
      rcases hx with h | h | h | h | h | h | h | h <;> (rw [h])
    · simp at hx
  · intro w x hx
    rw [wifi_dgrams] at hx
    rcases w with ⟨bf, a1, a2⟩
    cases bf
    · simp [wifiSent] at hx
      rcases hx with h | h <;> (rw [h])
    · simp at hx

/-- Witness for C1 at the concrete command `takeoff` on a fresh socket. -/
theorem send_single_datagram_to_fixed_peer_witness :
    WifiTest.send mkSock "takeoff" =
      Except.ok (mkSock, [.print ">>> takeoff",
        .dgram WifiTest.ADDR (utf8Encode "takeoff")]) ∧
    dgrams [Event.print ">>> takeoff",
        Event.dgram WifiTest.ADDR (utf8Encode "takeoff")] =
      [(WifiTest.ADDR, utf8Encode "takeoff")] :=
  ⟨rfl, send_single_datagram_to_fixed_peer.1 mkSock "takeoff"
    (mkSock, [.print ">>> takeoff",
      .dgram WifiTest.ADDR (utf8Encode "takeoff")]) rfl⟩

/-- Claim C2: a `recv` during which nothing arrives returns `None` (as
data, not an error), and in the Wi-Fi script, when nothing arrives
within the 8-second wait after `ap egg thewifipassword`, the run echoes
`<<< (no response)` and reports the no-response diagnosis. -/
theorem recv_timeout_returns_none :
    (∀ (s : Sock) (T : Nat), s.closed = false →
      WifiTest.recv s T none =
        Except.ok (s, none, [.recvWait T, .print "<<< (no response)"])) ∧
    (WifiTest.report none =
      "No response. Either not in SDK mode, not on Tello Wi-Fi, or " ++
        "command unsupported.") ∧
    (∀ w : World, w.bindFails = false → w.arrival2 = none →
      Event.print "<<< (no response)" ∈ (WifiTest.main w).1 ∧
      Event.print (WifiTest.report none) ∈ (WifiTest.main w).1) := by
  refine ⟨?_, rfl, ?_⟩
  · intro s T hs
    simp [WifiTest.recv, hs]
  · intro w hb ha
    rcases w with ⟨bf, a1, a2⟩
    simp only at hb ha
    subst hb
    subst ha
    cases a1 <;>
      simp [WifiTest.main, WifiTest.send, WifiTest.recv, bindOp, mkSock,
        closeSock]

/-- Witness for C2: the no-arrival `recv` with timeout 8 on a fresh
socket. -/
theorem recv_timeout_returns_none_witness :
    mkSock.closed = false ∧
    WifiTest.recv mkSock 8 none =
      Except.ok (mkSock, none, [.recvWait 8, .print "<<< (no response)"]) :=
  ⟨rfl, recv_timeout_returns_none.1 mkSock 8 rfl⟩

/-- Claim C7: in every run of either script, between any two datagram
transmissions there is a sleep or a receive wait, so at most one
command is in flight at a time. -/
theorem one_command_in_flight :
    ∀ w : World,
      paced (TelloTest.main w).1 = true ∧ paced (WifiTest.main w).1 = true := by
  intro w
  rcases w with ⟨bf, a1, a2⟩
  cases bf <;> cases a1 <;> cases a2 <;> exact ⟨rfl, rfl⟩

/-- Claim C8: `send` is fire-and-forget — on an open socket it succeeds
with its print/datagram/sleep events and no error, it fails (with the
transport error) only when the socket is unusable, the whole
`tello_test.py` run (which never calls `recv`) completes without any
raised error whenever bind succeeds, and its behaviour is independent
of anything the device sends back. -/
theorem send_fire_and_forget :
    (∀ (s : Sock) (cmd : String) (d : ℚ), s.closed = false →
      TelloTest.send s cmd d =
        Except.ok (s, [.print (">>> " ++ cmd),
          .dgram TelloTest.ADDR (utf8Encode cmd), .sleep d])) ∧
    (∀ (s : Sock) (cmd : String) (d : ℚ) (e : PyError),
      TelloTest.send s cmd d = Except.error e →
        s.closed = true ∧ e = PyError.transportError) ∧
    (∀ w : World, w.bindFails = false → (TelloTest.main w).2.2 = none) ∧
    (∀ w v : World, w.bindFails = v.bindFails →
      TelloTest.main w = TelloTest.main v) := by
  refine ⟨?_, ?_, ?_, ?_⟩
  · intro s cmd d hs
    simp [TelloTest.send, hs]
  · intro s cmd d e h
    by_cases hs : s.closed
    · simp [TelloTest.send, hs] at h
      exact ⟨hs, h.symm⟩
    · simp [TelloTest.send, hs] at h
  · intro w hb
    rcases w with ⟨bf, a1, a2⟩
    simp only at hb
    subst hb
    rfl
  · intro w v h
    rcases w with ⟨bf, a1, a2⟩
    rcases v with ⟨bf2, b1, b2⟩
    simp only at h
    subst h
    rfl

/-- Witness for C8: sending `takeoff` on a fresh open socket, with no
`recv` anywhere. -/
theorem send_fire_and_forget_witness :
    mkSock.closed = false ∧
    TelloTest.send mkSock "takeoff" 4 =
      Except.ok (mkSock, [.print ">>> takeoff",
        .dgram TelloTest.ADDR (utf8Encode "takeoff"), .sleep 4]) :=
  ⟨rfl, send_fire_and_forget.1 mkSock "takeoff" 4 rfl⟩

/-- Claim C9: the payloads either script ever transmits are exactly the
UTF-8 encodings of its scripted command strings, and each of those
strings is one of the spec's modeled command forms with any `speed`
argument inside the 10–100 range. -/
theorem only_modeled_commands_sent :
    (∀ w : World, (dgrams (TelloTest.main w).1).map Prod.snd =
      if w.bindFails then [] else telloSent.map utf8Encode) ∧
    (∀ w : World, (dgrams (WifiTest.main w).1).map Prod.snd =
      if w.bindFails then [] else wifiSent.map utf8Encode) ∧
    (telloSent ++ wifiSent).all
      (fun c => isModeledCommand c && speedInRange c) = true := by
  refine ⟨?_, ?_, by decide⟩
  · intro w
    rw [tello_dgrams]
    rcases w with ⟨bf, a1, a2⟩
    cases bf <;> rfl
  · intro w
    rw [wifi_dgrams]
    rcases w with ⟨bf, a1, a2⟩
    cases bf <;> rfl

/-- Counterexample to claim C3 as stated: a 1025-byte datagram (1024
blanks, then `b`) arrives; `recv` returns the trimmed decoding of only
its first 1024 bytes — the empty string — while the exact trimmed
decoding of the whole payload is `"b"`. -/
theorem recv_exact_text_counterexample :
    recvText (WifiTest.recv mkSock 8 (some c3payload)) = some "" ∧
    String.mk (pyStrip (utf8DecodeIgnore c3payload)) = "b" ∧
    some "" ≠ some ("b" : String) := by
  refine ⟨by decide, by decide, by decide⟩

/-- Claim C3 amended: for every datagram whose payload is at most 1024
bytes, `recv` returns the exact whitespace-trimmed UTF-8 decoding of
the payload (ill-formed bytes dropped), independent of which command —
if any — was sent beforehand (`recv` takes no command argument, so no
correlation is possible). -/
theorem recv_exact_text_small_payload :
    ∀ (s : Sock) (T : Nat) (p : List Nat), s.closed = false →
      p.length ≤ 1024 →
      recvText (WifiTest.recv s T (some p)) =
        some (String.mk (pyStrip (utf8DecodeIgnore p))) := by
  intro s T p hs hp
  simp [WifiTest.recv, recvText, hs, List.take_of_length_le hp]

/-- Witness for amended C3: the 4-byte reply `ok\r\n` is returned as
`ok`. -/
theorem recv_exact_text_small_payload_witness :
    (mkSock.closed = false ∧ ([111, 107, 13, 10] : List Nat).length ≤ 1024) ∧
    recvText (WifiTest.recv mkSock 3 (some [111, 107, 13, 10])) =
      some (String.mk (pyStrip (utf8DecodeIgnore [111, 107, 13, 10]))) :=
  ⟨⟨rfl, by decide⟩,
    recv_exact_text_small_payload mkSock 3 [111, 107, 13, 10] rfl (by decide)⟩

/-- Counterexample to claim C4 as stated: on the payload
`[0x61, 0xFF, 0x62]` the invalid byte is dropped, not replaced — `recv`
returns `"ab"`, while the replacement decoding the claim describes
would give `"a�b"`. -/
theorem recv_replaces_invalid_counterexample :
    recvText (WifiTest.recv mkSock 5 (some [97, 255, 98])) = some "ab" ∧
    String.mk (pyStrip (utf8DecodeReplace [97, 255, 98])) = "a�b" ∧
    ("ab" : String) ≠ "a�b" := by
  refine ⟨by decide, by decide, by decide⟩

/-- Claim C4 amended: for every received payload — invalid UTF-8
included — `recv` does not raise: ill-formed sequences are dropped
(`errors="ignore"`), not replaced, and a best-effort trimmed string is
still returned. -/
theorem recv_drops_invalid_bytes :
    ∀ (s : Sock) (T : Nat) (p : List Nat), s.closed = false →
      WifiTest.recv s T (some p) =
        Except.ok (s,
          some (String.mk (pyStrip (utf8DecodeIgnore (p.take 1024)))),
          [.recvWait T,
            .print ("<<< " ++ String.mk (utf8DecodeIgnore (p.take 1024)))]) := by
  intro s T p hs
  simp [WifiTest.recv, hs]

/-- Witness for amended C4 at the invalid payload `[0x61, 0xFF, 0x62]`. -/
theorem recv_drops_invalid_bytes_witness :
    mkSock.closed = false ∧
    WifiTest.recv mkSock 5 (some [97, 255, 98]) =
      Except.ok (mkSock,
        some (String.mk (pyStrip (utf8DecodeIgnore
          (([97, 255, 98] : List Nat).take 1024)))),
        [.recvWait 5,
          .print ("<<< " ++ String.mk (utf8DecodeIgnore
            (([97, 255, 98] : List Nat).take 1024)))]) :=
  ⟨rfl, recv_drops_invalid_bytes mkSock 5 [97, 255, 98] rfl⟩

/-- Counterexample to claim C5 as stated: when bind fails, the
`tello_test.py` run aborts with the bind error, but its trace contains
no close event and the socket is still open — the socket is not
released on that exit path (bind precedes the `try`/`finally`). -/
theorem bind_failure_releases_socket_counterexample :
    TelloTest.main ⟨true, none, none⟩ = ([], mkSock, some PyError.bindError) ∧
    Event.close ∉ (TelloTest.main ⟨true, none, none⟩).1 ∧
    (TelloTest.main ⟨true, none, none⟩).2.1.closed = false := by
  refine ⟨rfl, by decide, rfl⟩

/-- Claim C5 amended: if binding the local port fails, the run aborts
immediately — nothing is printed, transmitted, or slept, and the bind
error is the run's outcome — but the socket is not closed on that exit
path; release is only guaranteed once bind has succeeded. -/
theorem bind_failure_aborts_without_close :
    ∀ w : World, w.bindFails = true →
      TelloTest.main w = ([], mkSock, some PyError.bindError) ∧
      WifiTest.main w = ([], mkSock, some PyError.bindError) := by
  intro w hb
  rcases w with ⟨bf, a1, a2⟩
  simp only at hb
  subst hb
  exact ⟨rfl, rfl⟩

/-- Witness for amended C5 at the world where bind fails. -/
theorem bind_failure_aborts_without_close_witness :
    (World.mk true none none).bindFails = true ∧
    (TelloTest.main ⟨true, none, none⟩ = ([], mkSock, some PyError.bindError) ∧
      WifiTest.main ⟨true, none, none⟩ =
        ([], mkSock, some PyError.bindError)) :=
  ⟨rfl, bind_failure_aborts_without_close ⟨true, none, none⟩ rfl⟩

/-- Counterexample to claim C6 as stated: the bind-failure exit of the
`wifi-test.py` run is an exit path on which `close` never runs. -/
theorem close_every_exit_counterexample :
    (WifiTest.main ⟨true, none, none⟩).2.2 = some PyError.bindError ∧
    Event.close ∉ (WifiTest.main ⟨true, none, none⟩).1 := by
  refine ⟨rfl, by decide⟩

/-- Claim C6 amended: `close` is idempotent and never raises (it is a
total function on socket states), and it runs on every exit path taken
after a successful bind — in every such run of either script the trace
contains a close event and the final socket is closed.  It does not run
on the bind-failure exit, which precedes the `try`/`finally`. -/
theorem close_idempotent_and_guaranteed :
    (∀ s : Sock, closeSock (closeSock s) = closeSock s) ∧
    (∀ w : World, w.bindFails = false →
      ((TelloTest.main w).2.1.closed = true ∧
        Event.close ∈ (TelloTest.main w).1) ∧
      ((WifiTest.main w).2.1.closed = true ∧
        Event.close ∈ (WifiTest.main w).1)) := by
  refine ⟨fun s => rfl, ?_⟩
  intro w hb
  rcases w with ⟨bf, a1, a2⟩
  simp only at hb
  subst hb
  cases a1 <;> cases a2 <;>
    simp [TelloTest.main, TelloTest.send, WifiTest.main, WifiTest.send,
      WifiTest.recv, bindOp, mkSock, closeSock]

/-- Witness for amended C6 at the world where bind succeeds and nothing
ever arrives. -/
theorem close_idempotent_and_guaranteed_witness :
    (World.mk false none none).bindFails = false ∧
    (((TelloTest.main ⟨false, none, none⟩).2.1.closed = true ∧
        Event.close ∈ (TelloTest.main ⟨false, none, none⟩).1) ∧
      ((WifiTest.main ⟨false, none, none⟩).2.1.closed = true ∧
        Event.close ∈ (WifiTest.main ⟨false, none, none⟩).1)) :=
  ⟨rfl, close_idempotent_and_guaranteed.2 ⟨false, none, none⟩ rfl⟩

/-- Claim C10: `recv` reads at most 1024 bytes of an arriving datagram;
for every payload longer than 1024 bytes the returned text is the
trimmed decoding of only the first 1024 bytes. -/
theorem recv_reads_at_most_1024 :
    ∀ (s : Sock) (T : Nat) (p : List Nat), s.closed = false →
      1024 < p.length →
      recvText (WifiTest.recv s T (some p)) =
        some (String.mk (pyStrip (utf8DecodeIgnore (p.take 1024)))) := by
  intro s T p hs _
  simp [WifiTest.recv, recvText, hs]

/-- Witness for C10 at a concrete 1025-byte payload. -/
theorem recv_reads_at_most_1024_witness :
    (mkSock.closed = false ∧ 1024 < (List.replicate 1025 65).length) ∧
    recvText (WifiTest.recv mkSock 5 (some (List.replicate 1025 65))) =
      some (String.mk (pyStrip (utf8DecodeIgnore
        ((List.replicate 1025 65).take 1024)))) :=
  ⟨⟨rfl, by simp⟩,
    recv_reads_at_most_1024 mkSock 5 (List.replicate 1025 65) rfl (by simp)⟩
